import Mathlib

/-!
Verification of the spiral-galaxy generation and animation pipeline
(`src/scenes/examples/CubeScene.ts`, class `GalaxyScene`, together with
`src/scenes/BaseScene.ts` and the entry script).

The TypeScript/GLSL code is shallowly embedded: machine floats become real
numbers, `Math.random()` becomes an explicit stream `rng : ℕ → ℝ` of draws
(the generation loop consumes four draws per point, in source order:
radius, armOffset, randomOffset, vertical thickness), typed arrays become
lists, and the mutable scene object becomes an explicit state record with a
step function per `animate` frame.
-/

namespace Galaxy

noncomputable section

/-- Structure `params.galaxy` of `GalaxyScene` (CubeScene.ts lines 253-264). -/
structure GalaxyParams where
  armCount : ℕ
  armWidth : ℝ
  spiralFactor : ℝ
  particleCount : ℕ
  size : ℝ
  randomness : ℝ
  colorShift : ℝ
  coreSize : ℝ
  coreIntensity : ℝ
  dustDensity : ℝ

/-- Structure `params.animation` of `GalaxyScene` (CubeScene.ts lines 270-274). -/
structure AnimParams where
  rotationSpeed : ℝ
  pulseIntensity : ℝ
  audioReactivity : ℝ

/-- An RGB triple, channels in `[0,1]` (a `THREE.Color`). -/
structure Color where
  r : ℝ
  g : ℝ
  b : ℝ

/-- Structure `params.colors` of `GalaxyScene` (CubeScene.ts lines 265-269). -/
structure ColorParams where
  core : Color
  arms : Color
  dust : Color

/-- A 3D position. -/
structure Point3 where
  x : ℝ
  y : ℝ
  z : ℝ

/-- Scalar multiplication of a point (GLSL `c * pos`). -/
def smul3 (c : ℝ) (p : Point3) : Point3 :=
  ⟨c * p.x, c * p.y, c * p.z⟩

/-- Componentwise addition (GLSL `pos + q`). -/
def add3 (p q : Point3) : Point3 :=
  ⟨p.x + q.x, p.y + q.y, p.z + q.z⟩

/-- GLSL `length(p)`. -/
def norm3 (p : Point3) : ℝ :=
  Real.sqrt (p.x ^ 2 + p.y ^ 2 + p.z ^ 2)

/-- GLSL `normalize(p)` (at the origin we take `1/0 = 0`, so the value is
the zero vector; the shader only multiplies it by a scalar). -/
def normalize3 (p : Point3) : Point3 :=
  smul3 (1 / norm3 p) p

/-- Library call `THREE.Color.lerpColors(a, b, t)`: per-channel linear interpolation
`a.ch + (b.ch - a.ch) * t`, with no clamping of `t`. -/
def lerpColors (a b : Color) (t : ℝ) : Color :=
  ⟨a.r + (b.r - a.r) * t, a.g + (b.g - a.g) * t, a.b + (b.b - a.b) * t⟩

/-- The all-zero random stream, used to instantiate theorems at a concrete
input. -/
def rng0 : ℕ → ℝ := fun _ => 0

/-- Default galaxy parameters from the source (CubeScene.ts lines 253-264). -/
def defaultGalaxyParams : GalaxyParams :=
  { armCount := 5
    armWidth := 0.3
    spiralFactor := 1.5
    particleCount := 100000
    size := 1000
    randomness := 0.2
    colorShift := 0.5
    coreSize := 100
    coreIntensity := 2.0
    dustDensity := 0.5 }

/-- Default animation parameters from the source (CubeScene.ts lines 270-274). -/
def defaultAnim : AnimParams :=
  { rotationSpeed := 0.1
    pulseIntensity := 0.3
    audioReactivity := 1.0 }

/-- Default colors (CubeScene.ts lines 265-269): `core = 0xffaa55`,
`arms = 0x0066ff`, `dust = 0xff5500`, each channel divided by 255. -/
def defaultColors : ColorParams :=
  { core := ⟨1, 170 / 255, 85 / 255⟩
    arms := ⟨0, 102 / 255, 1⟩
    dust := ⟨1, 85 / 255, 0⟩ }

/-! ## Galaxy generation (`createGalaxy`, CubeScene.ts lines 398-441)

Point `i` consumes the random draws `rng (4*i)` (radius), `rng (4*i+1)`
(arm offset), `rng (4*i+2)` (random offset) and `rng (4*i+3)` (vertical
thickness), in the order `Math.random()` is called in the loop body. -/

/-- Source line `armAngle = (i % armCount) * (2π / armCount)` (lines 408-409). -/
def armAngle (gp : GalaxyParams) (i : ℕ) : ℝ :=
  ((i % gp.armCount : ℕ) : ℝ) * (2 * Real.pi / gp.armCount)

/-- Source line `radius = Math.random() * size` (line 412). -/
def genRadius (gp : GalaxyParams) (rng : ℕ → ℝ) (i : ℕ) : ℝ :=
  rng (4 * i) * gp.size

/-- Source line `armOffset = (Math.random() - 0.5) * armWidth * radius` (line 413). -/
def armOffset (gp : GalaxyParams) (rng : ℕ → ℝ) (i : ℕ) : ℝ :=
  (rng (4 * i + 1) - 0.5) * gp.armWidth * genRadius gp rng i

/-- Source line `spiralAngle = (radius / size) * spiralFactor * π * 2` (lines 416-417). -/
def spiralAngle (gp : GalaxyParams) (rng : ℕ → ℝ) (i : ℕ) : ℝ :=
  (genRadius gp rng i / gp.size) * gp.spiralFactor * Real.pi * 2

/-- Source line `totalAngle = armAngle + spiralAngle` (line 418). -/
def totalAngle (gp : GalaxyParams) (rng : ℕ → ℝ) (i : ℕ) : ℝ :=
  armAngle gp i + spiralAngle gp rng i

/-- Source line `randomOffset = (Math.random() - 0.5) * randomness * radius` (line 421). -/
def randomOffset (gp : GalaxyParams) (rng : ℕ → ℝ) (i : ℕ) : ℝ :=
  (rng (4 * i + 2) - 0.5) * gp.randomness * genRadius gp rng i

/-- The stored position of point `i` (lines 423-425). -/
def genPosition (gp : GalaxyParams) (rng : ℕ → ℝ) (i : ℕ) : Point3 :=
  ⟨Real.cos (totalAngle gp rng i) * (genRadius gp rng i + armOffset gp rng i)
      + randomOffset gp rng i,
    (rng (4 * i + 3) - 0.5) * genRadius gp rng i * 0.1,
    Real.sin (totalAngle gp rng i) * (genRadius gp rng i + armOffset gp rng i)
      + randomOffset gp rng i⟩

/-- Source line `distanceFromCenter = radius / size` (line 428). -/
def distanceFromCenter (gp : GalaxyParams) (rng : ℕ → ℝ) (i : ℕ) : ℝ :=
  genRadius gp rng i / gp.size

/-- The stored color of point `i` (lines 429-437):
`lerpColors(core, arms, distanceFromCenter * colorShift)`. -/
def genColor (gp : GalaxyParams) (cp : ColorParams) (rng : ℕ → ℝ) (i : ℕ) : Color :=
  lerpColors cp.core cp.arms (distanceFromCenter gp rng i * gp.colorShift)

/-- The stored size of point `i` (line 440):
`Math.max(2, (1 - distanceFromCenter) * 4)`. -/
def genSize (gp : GalaxyParams) (rng : ℕ → ℝ) (i : ℕ) : ℝ :=
  max 2 ((1 - distanceFromCenter gp rng i) * 4)

/-- The generation artifact: positions, colors and sizes, index-aligned. -/
structure PointCloud where
  positions : List Point3
  colors : List Color
  sizes : List ℝ

/-- Method `createGalaxy` (lines 398-445): one entry per `i < particleCount` in
each of the three attribute arrays. -/
def createGalaxy (gp : GalaxyParams) (cp : ColorParams) (rng : ℕ → ℝ) : PointCloud :=
  { positions := (List.range gp.particleCount).map (genPosition gp rng)
    colors := (List.range gp.particleCount).map (genColor gp cp rng)
    sizes := (List.range gp.particleCount).map (genSize gp rng) }

/-! ## The vertex shader (`createGalaxy` material, CubeScene.ts lines 455-486)

The shader is a pure per-vertex function of the original `position`
attribute and the material uniforms. -/

/-- The uniforms the vertex shader reads (lines 448-454, 456-459). -/
structure ShaderUniforms where
  time : ℝ
  audioIntensity : ℝ
  rotationSpeed : ℝ
  pulseIntensity : ℝ

/-- Shader line `angle = time * rotationSpeed` (line 468), in terms of the uniforms. -/
def shaderAngle (u : ShaderUniforms) : ℝ :=
  u.time * u.rotationSpeed

/-- The rotation applied by the shader (lines 469-472): a standard 2D
rotation of `(x, z)` in the horizontal plane, keeping `y`. -/
def rotateY (angle : ℝ) (p : Point3) : Point3 :=
  ⟨p.x * Real.cos angle - p.z * Real.sin angle,
    p.y,
    p.x * Real.sin angle + p.z * Real.cos angle⟩

/-- Shader line `pulse = sin(time * 2.0) * pulseIntensity` (line 475). -/
def shaderPulse (u : ShaderUniforms) : ℝ :=
  Real.sin (u.time * 2) * u.pulseIntensity

/-- Shader line `displacement = sin(time + length(position) * 0.02) * audioIntensity * 10.0`
(line 479); `position` is the original attribute, not the rotated value. -/
def displacement (u : ShaderUniforms) (p : Point3) : ℝ :=
  Real.sin (u.time + norm3 p * 0.02) * u.audioIntensity * 10

/-- The whole per-vertex position transform (lines 463-481): rotate, scale
by `1 + pulse * 0.1`, then add `normalize(position) * displacement`. -/
def advance (u : ShaderUniforms) (p : Point3) : Point3 :=
  add3 (smul3 (1 + shaderPulse u * 0.1) (rotateY (shaderAngle u) p))
    (smul3 (displacement u p) (normalize3 p))

/-- Pre-perspective point size (line 483):
`size * (1.0 + audioIntensity * 0.5)` (the `1500.0 / length(mvPosition)`
factor is the renderer's perspective scaling). -/
def shaderPointSize (u : ShaderUniforms) (storedSize : ℝ) : ℝ :=
  storedSize * (1 + u.audioIntensity * 0.5)

/-! ## The frame loop (`animate`, CubeScene.ts lines 354-382) -/

/-- The value stored into the material `time` uniform each frame
(line 361): `this.time * rotationSpeed`. -/
def timeUniformVal (ap : AnimParams) (t : ℝ) : ℝ :=
  t * ap.rotationSpeed

/-- The effective shader rotation angle as a function of the global
elapsed time `t`: the uniform `t * rotationSpeed` (line 361) is
multiplied again by `rotationSpeed` inside the shader (line 468). -/
def effAngle (ap : AnimParams) (t : ℝ) : ℝ :=
  timeUniformVal ap t * ap.rotationSpeed

/-- The Audio Loudness Sampler (lines 365-367):
`Array.from(dataArray).reduce((a, b) => a + b, 0) / (dataArray.length * 255)`. -/
def sampleIntensity (bins : List ℕ) : ℝ :=
  ((bins.sum : ℕ) : ℝ) / ((bins.length : ℝ) * 255)

/-- The mutable fields of `GalaxyScene` that the claims are about:
`this.time`, `this.isAudioConnected`, whether the `AudioContext` was
created in `init` (the `analyser` being non-null), the two per-material
uniforms updated by `animate`, and the generated cloud. -/
structure SceneState where
  time : ℝ
  isAudioConnected : Bool
  audioAvailable : Bool
  uTime : ℝ
  uAudioIntensity : ℝ
  cloud : PointCloud

/-- State after the constructor (line 249: `isAudioConnected = false`),
`createGalaxy` (uniforms `time` and `audioIntensity` initialized to 0,
lines 449-450) and `init`'s audio try/catch (lines 300-307, which sets
only `audioContext`/`analyser`/`dataArray` and on failure merely warns). -/
def initialState (gp : GalaxyParams) (cp : ColorParams) (rng : ℕ → ℝ)
    (audioOk : Bool) : SceneState :=
  { time := 0
    isAudioConnected := false
    audioAvailable := audioOk
    uTime := 0
    uAudioIntensity := 0
    cloud := createGalaxy gp cp rng }

/-- One `animate` call (lines 354-382): `time += 0.016`; the `time`
uniform becomes `time * rotationSpeed`; the `audioIntensity` uniform is
rewritten to `sampleIntensity * audioReactivity` only when
`isAudioConnected && analyser`; the generated buffers are untouched. -/
def animateStep (ap : AnimParams) (bins : List ℕ) (s : SceneState) : SceneState :=
  let t := s.time + 0.016
  { s with
    time := t
    uTime := timeUniformVal ap t
    uAudioIntensity :=
      if s.isAudioConnected && s.audioAvailable then
        sampleIntensity bins * ap.audioReactivity
      else s.uAudioIntensity }

/-- A GUI-triggered regeneration (`createGalaxy`, lines 314-325): the
cloud is replaced wholesale and the new material starts with uniforms
`time = 0`, `audioIntensity = 0` (lines 448-450). -/
def regenStep (gp : GalaxyParams) (cp : ColorParams) (rng : ℕ → ℝ)
    (s : SceneState) : SceneState :=
  { s with
    uTime := 0
    uAudioIntensity := 0
    cloud := createGalaxy gp cp rng }

/-- The states a `GalaxyScene` session can reach: a fresh scene, then any
interleaving of frames (with arbitrary per-frame audio data and live
animation-parameter edits) and regenerations. -/
inductive Reachable : SceneState → Prop
  | boot (gp : GalaxyParams) (cp : ColorParams) (rng : ℕ → ℝ) (audioOk : Bool) :
      Reachable (initialState gp cp rng audioOk)
  | frame (ap : AnimParams) (bins : List ℕ) (s : SceneState) :
      Reachable s → Reachable (animateStep ap bins s)
  | regen (gp : GalaxyParams) (cp : ColorParams) (rng : ℕ → ℝ) (s : SceneState) :
      Reachable s → Reachable (regenStep gp cp rng s)

/-- The uniforms the particle shader sees in a given state, with the
`rotationSpeed` and `pulseIntensity` uniforms tracking the live
animation parameters (GUI `onChange`, lines 335-348). -/
def uniformsAt (ap : AnimParams) (s : SceneState) : ShaderUniforms :=
  ⟨s.uTime, s.uAudioIntensity, ap.rotationSpeed, ap.pulseIntensity⟩

/-- The per-frame rendered positions: the shader maps `advance` over the
stored (original) positions; nothing is written back. -/
def renderedPositions (ap : AnimParams) (s : SceneState) : List Point3 :=
  s.cloud.positions.map (advance (uniformsAt ap s))

/-- Iterated frames: `n` calls of `animate` from `s`, frame `k` seeing audio data
`binsSeq k`. -/
def framesFrom (ap : AnimParams) (binsSeq : ℕ → List ℕ) (s : SceneState) :
    ℕ → SceneState
  | 0 => s
  | n + 1 => animateStep ap (binsSeq n) (framesFrom ap binsSeq s n)

/-! ## Startup (`BaseScene` constructor, BaseScene.ts lines 8-23, and the
`DOMContentLoaded` handler of the entry script) -/

/-- Outcome of constructing and starting the scene. -/
inductive InitOutcome where
  | started (canvasAttached : Bool)
  | startupError
deriving DecidableEq

/-- BaseScene.ts line 19:
`document.getElementById('app')?.appendChild(renderer.domElement)`.
Optional chaining: when the host container is absent the lookup yields
`null`, the `appendChild` call is skipped, and no exception is thrown, so
construction completes and `start()` goes on to `init()` and `animate()`;
the canvas is attached exactly when the container is present. -/
def baseSceneStartup (hostPresent : Bool) : InitOutcome :=
  InitOutcome.started hostPresent

/-- Modelled from the spec: "missing host container — the designated
attachment point for the visual surface is absent — fatal, surfaces
immediately as a startup failure since no rendering is possible" (§7).
This is the behavior the claim asserts, for comparison with
`baseSceneStartup`. -/
def specFatalStartup (hostPresent : Bool) : InitOutcome :=
  if hostPresent then InitOutcome.started true else InitOutcome.startupError

/-- The number of generated indices `i < n` that fall in arm bucket `b`
under the source's assignment `i % armCount` (line 408), for `n` points
and `m` arms. -/
def armBucketCount (n m b : ℕ) : ℕ :=
  ((Finset.range n).filter (fun i => i % m = b)).card

end

/-! ## Helper lemmas -/

theorem list_sum_of_all_eq {l : List ℕ} {c : ℕ} (h : ∀ x ∈ l, x = c) :
    l.sum = l.length * c := by
  induction l with
  | nil => simp
  | cons a t ih =>
      have ha : a = c := h a (by simp)
      have ht : t.sum = t.length * c := ih fun x hx => h x (by simp [hx])
      simp [List.sum_cons, ha, ht]
      ring

theorem list_sum_le_len_mul {l : List ℕ} {c : ℕ} (h : ∀ x ∈ l, x ≤ c) :
    l.sum ≤ l.length * c := by
  induction l with
  | nil => simp
  | cons a t ih =>
      have ha : a ≤ c := h a (by simp)
      have ht : t.sum ≤ t.length * c := ih fun x hx => h x (by simp [hx])
      simp only [List.sum_cons, List.length_cons]
      calc a + t.sum ≤ c + t.length * c := Nat.add_le_add ha ht
        _ = (t.length + 1) * c := by ring

theorem distanceFromCenter_eq (gp : GalaxyParams) (rng : ℕ → ℝ) (i : ℕ)
    (hsize : (0 : ℝ) < gp.size) :
    distanceFromCenter gp rng i = rng (4 * i) := by
  unfold distanceFromCenter genRadius
  field_simp

theorem filter_mod_card (n m b : ℕ) (hm : 0 < m) (hb : b < m) :
    armBucketCount n m b = n / m + if b < n % m then 1 else 0 := by
  have hinj : Function.Injective (fun j : ℕ => j * m + b) := by
    intro a c h
    simp only at h
    exact Nat.eq_of_mul_eq_mul_right hm (Nat.add_right_cancel h)
  have hset : (Finset.range n).filter (fun i => i % m = b)
      = (Finset.range (n / m + if b < n % m then 1 else 0)).image
          (fun j => j * m + b) := by
    ext i
    simp only [Finset.mem_filter, Finset.mem_range, Finset.mem_image]
    constructor
    · rintro ⟨hin, hmod⟩
      have hval : i / m * m + b = i := by
        rw [← hmod]; exact Nat.div_add_mod' i m
      refine ⟨i / m, ?_, hval⟩
      have hle : i / m ≤ n / m := Nat.div_le_div_right (le_of_lt hin)
      rcases Nat.lt_or_ge (i / m) (n / m) with hlt | hge
      · exact lt_of_lt_of_le hlt (Nat.le_add_right _ _)
      · have heq : i / m = n / m := le_antisymm hle hge
        rw [heq] at hval
        have hblt : b < n % m := by
          have hsum : n / m * m + b < n / m * m + n % m := by
            rw [hval, Nat.div_add_mod' n m]; exact hin
          exact Nat.lt_of_add_lt_add_left hsum
        rw [if_pos hblt, heq]
        exact Nat.lt_succ_self _
    · rintro ⟨j, hj, hval⟩
      have hmod : i % m = b := by
        rw [← hval, Nat.mul_comm j m]
        exact (Nat.mul_add_mod m j b).trans (Nat.mod_eq_of_lt hb)
      refine ⟨?_, hmod⟩
      by_cases hbn : b < n % m
      · rw [if_pos hbn] at hj
        have hjle : j ≤ n / m := Nat.lt_succ_iff.mp hj
        calc i = j * m + b := hval.symm
          _ ≤ n / m * m + b := Nat.add_le_add_right (Nat.mul_le_mul_right m hjle) b
          _ < n / m * m + n % m := Nat.add_lt_add_left hbn _
          _ = n := Nat.div_add_mod' n m
      · rw [if_neg hbn, Nat.add_zero] at hj
        calc i = j * m + b := hval.symm
          _ < j * m + m := Nat.add_lt_add_left hb _
          _ = (j + 1) * m := by ring
          _ ≤ n / m * m := Nat.mul_le_mul_right m (Nat.succ_le_of_lt hj)
          _ ≤ n := Nat.div_mul_le_self n m
  rw [armBucketCount, hset, Finset.card_image_of_injective _ hinj,
    Finset.card_range]

/-! ## Claim theorems -/

/-- C2: for every valid `GalaxyParameters` (`particleCount > 0`,
`size > 0`), `createGalaxy` returns positions, colors and sizes arrays
each of length exactly `particleCount`; the stored size of point `i` is
`max(2, (1 - distanceFromCenter_i) * 4)`; every size is `≥ 2`; and sizes
are non-increasing in the point's generation radius. -/
theorem c2_generate_counts_and_sizes (gp : GalaxyParams) (cp : ColorParams)
    (rng : ℕ → ℝ) (_hpc : 0 < gp.particleCount) (hsize : (0 : ℝ) < gp.size) :
    (createGalaxy gp cp rng).positions.length = gp.particleCount ∧
    (createGalaxy gp cp rng).colors.length = gp.particleCount ∧
    (createGalaxy gp cp rng).sizes.length = gp.particleCount ∧
    (∀ i, i < gp.particleCount →
      (createGalaxy gp cp rng).sizes[i]? =
        some (max 2 ((1 - distanceFromCenter gp rng i) * 4))) ∧
    (∀ i, 2 ≤ genSize gp rng i) ∧
    (∀ i j, genRadius gp rng i ≤ genRadius gp rng j →
      genSize gp rng j ≤ genSize gp rng i) := by
  refine ⟨by simp [createGalaxy], by simp [createGalaxy], by simp [createGalaxy],
    ?_, ?_, ?_⟩
  · intro i hi
    simp [createGalaxy, List.getElem?_map, List.getElem?_range, hi, genSize]
  · intro i
    exact le_max_left 2 _
  · intro i j hij
    have hd : distanceFromCenter gp rng i ≤ distanceFromCenter gp rng j := by
      unfold distanceFromCenter
      gcongr
    unfold genSize
    exact max_le_max le_rfl (by linarith)

/-- C2 witness: the default parameters are valid, and the conclusion holds
for them. -/
theorem c2_witness :
    (0 < defaultGalaxyParams.particleCount ∧
      (0 : ℝ) < defaultGalaxyParams.size) ∧
    ((createGalaxy defaultGalaxyParams defaultColors rng0).positions.length
        = defaultGalaxyParams.particleCount ∧
      (createGalaxy defaultGalaxyParams defaultColors rng0).colors.length
        = defaultGalaxyParams.particleCount ∧
      (createGalaxy defaultGalaxyParams defaultColors rng0).sizes.length
        = defaultGalaxyParams.particleCount ∧
      (∀ i, i < defaultGalaxyParams.particleCount →
        (createGalaxy defaultGalaxyParams defaultColors rng0).sizes[i]? =
          some (max 2 ((1 - distanceFromCenter defaultGalaxyParams rng0 i) * 4))) ∧
      (∀ i, 2 ≤ genSize defaultGalaxyParams rng0 i) ∧
      (∀ i j, genRadius defaultGalaxyParams rng0 i
            ≤ genRadius defaultGalaxyParams rng0 j →
        genSize defaultGalaxyParams rng0 j
          ≤ genSize defaultGalaxyParams rng0 i)) :=
  ⟨⟨by norm_num [defaultGalaxyParams], by norm_num [defaultGalaxyParams]⟩,
    c2_generate_counts_and_sizes defaultGalaxyParams defaultColors rng0
      (by norm_num [defaultGalaxyParams]) (by norm_num [defaultGalaxyParams])⟩

/-- C3: with `size > 0`, random draws in `[0,1)` and `colorShift ∈ [0,1]`,
every generated point has `distanceFromCenter = radius / size ∈ [0,1)`,
the interpolation parameter `distanceFromCenter * colorShift` stays in
`[0,1)`, the stored color is `lerpColors(core, arms,
distanceFromCenter * colorShift)`, and each channel equals
`core.ch + (arms.ch - core.ch) * (distanceFromCenter * colorShift)`. -/
theorem c3_color_gradient (gp : GalaxyParams) (cp : ColorParams) (rng : ℕ → ℝ)
    (hsize : (0 : ℝ) < gp.size) (hrng : ∀ n, 0 ≤ rng n ∧ rng n < 1)
    (hcs0 : 0 ≤ gp.colorShift) (hcs1 : gp.colorShift ≤ 1) :
    ∀ i,
      (0 ≤ distanceFromCenter gp rng i ∧ distanceFromCenter gp rng i < 1) ∧
      (0 ≤ distanceFromCenter gp rng i * gp.colorShift ∧
        distanceFromCenter gp rng i * gp.colorShift < 1) ∧
      (i < gp.particleCount →
        (createGalaxy gp cp rng).colors[i]? =
          some (lerpColors cp.core cp.arms
            (distanceFromCenter gp rng i * gp.colorShift))) ∧
      ((genColor gp cp rng i).r = cp.core.r + (cp.arms.r - cp.core.r) *
          (distanceFromCenter gp rng i * gp.colorShift) ∧
        (genColor gp cp rng i).g = cp.core.g + (cp.arms.g - cp.core.g) *
          (distanceFromCenter gp rng i * gp.colorShift) ∧
        (genColor gp cp rng i).b = cp.core.b + (cp.arms.b - cp.core.b) *
          (distanceFromCenter gp rng i * gp.colorShift)) := by
  intro i
  have hd := distanceFromCenter_eq gp rng i hsize
  have h0 : 0 ≤ distanceFromCenter gp rng i := by
    rw [hd]; exact (hrng (4 * i)).1
  have h1 : distanceFromCenter gp rng i < 1 := by
    rw [hd]; exact (hrng (4 * i)).2
  refine ⟨⟨h0, h1⟩, ⟨mul_nonneg h0 hcs0, ?_⟩, ?_, by
    simp [genColor, lerpColors]⟩
  · calc distanceFromCenter gp rng i * gp.colorShift
        ≤ distanceFromCenter gp rng i * 1 :=
          mul_le_mul_of_nonneg_left hcs1 h0
      _ = distanceFromCenter gp rng i := mul_one _
      _ < 1 := h1
  · intro hi
    simp [createGalaxy, List.getElem?_map, List.getElem?_range, hi, genColor]

/-- C3 witness: the default parameters and the all-zero random stream
satisfy the hypotheses, and the conclusion holds for them at every index. -/
theorem c3_witness :
    ((0 : ℝ) < defaultGalaxyParams.size ∧
      (∀ n, 0 ≤ rng0 n ∧ rng0 n < 1) ∧
      0 ≤ defaultGalaxyParams.colorShift ∧ defaultGalaxyParams.colorShift ≤ 1) ∧
    (0 ≤ distanceFromCenter defaultGalaxyParams rng0 0 ∧
      distanceFromCenter defaultGalaxyParams rng0 0 < 1) :=
  ⟨⟨by norm_num [defaultGalaxyParams], fun n => by norm_num [rng0],
      by norm_num [defaultGalaxyParams], by norm_num [defaultGalaxyParams]⟩,
    (c3_color_gradient defaultGalaxyParams defaultColors rng0
      (by norm_num [defaultGalaxyParams]) (fun n => by norm_num [rng0])
      (by norm_num [defaultGalaxyParams]) (by norm_num [defaultGalaxyParams]) 0).1⟩

/-- C4: with `armCount ≥ 2`, point `i` is assigned to arm bucket
`i % armCount` (its base angle depends only on that residue, and equals
`(i % armCount) * (2π / armCount)`), the bucket of residue
`b < armCount` receives exactly
`particleCount / armCount + (1 if b < particleCount % armCount)` points,
so bucket sizes differ by at most 1; with `armCount = 5` and
`particleCount = 100000` every bucket holds exactly 20000 points. -/
theorem c4_arm_buckets (gp : GalaxyParams) (h2 : 2 ≤ gp.armCount) :
    (∀ i, armAngle gp i = armAngle gp (i % gp.armCount) ∧
      armAngle gp i =
        ((i % gp.armCount : ℕ) : ℝ) * (2 * Real.pi / gp.armCount)) ∧
    (∀ b, b < gp.armCount →
      armBucketCount gp.particleCount gp.armCount b
        = gp.particleCount / gp.armCount +
            if b < gp.particleCount % gp.armCount then 1 else 0) ∧
    (∀ b1 b2, b1 < gp.armCount → b2 < gp.armCount →
      armBucketCount gp.particleCount gp.armCount b1
        ≤ armBucketCount gp.particleCount gp.armCount b2 + 1) ∧
    (∀ b, b < 5 → armBucketCount 100000 5 b = 20000) := by
  have hm : 0 < gp.armCount := lt_of_lt_of_le (by norm_num) h2
  refine ⟨?_, ?_, ?_, ?_⟩
  · intro i
    constructor
    · rw [armAngle, armAngle, Nat.mod_mod_of_dvd i (dvd_refl gp.armCount)]
    · rfl
  · intro b hb
    exact filter_mod_card gp.particleCount gp.armCount b hm hb
  · intro b1 b2 hb1 hb2
    rw [filter_mod_card gp.particleCount gp.armCount b1 hm hb1,
      filter_mod_card gp.particleCount gp.armCount b2 hm hb2]
    split_ifs <;> omega
  · intro b hb
    rw [filter_mod_card 100000 5 b (by norm_num) hb]
    norm_num

/-- C4 witness: the default parameters have `armCount = 5 ≥ 2`, and in
particular each of the five default arm buckets holds exactly 20000 of
the default 100000 points. -/
theorem c4_witness :
    2 ≤ defaultGalaxyParams.armCount ∧
    (∀ b, b < 5 → armBucketCount 100000 5 b = 20000) :=
  ⟨by norm_num [defaultGalaxyParams],
    (c4_arm_buckets defaultGalaxyParams (by norm_num [defaultGalaxyParams])).2.2.2⟩

/-- C7: for every nonempty sequence of byte-valued bins, the Audio
Loudness Sampler returns `(sum of bins) / (count * 255)`, which lies in
`[0,1]`, is `0` when every bin is `0`, and is `1` when every bin is
`255`. -/
theorem c7_sampler_bounds (bins : List ℕ) (hne : bins ≠ [])
    (hb : ∀ x ∈ bins, x ≤ 255) :
    (0 ≤ sampleIntensity bins ∧ sampleIntensity bins ≤ 1) ∧
    ((∀ x ∈ bins, x = 0) → sampleIntensity bins = 0) ∧
    ((∀ x ∈ bins, x = 255) → sampleIntensity bins = 1) := by
  have hlen : 0 < bins.length := List.length_pos.mpr hne
  have hlenR : (0 : ℝ) < (bins.length : ℝ) * 255 := by positivity
  refine ⟨⟨div_nonneg (by positivity) (le_of_lt hlenR), ?_⟩, ?_, ?_⟩
  · rw [sampleIntensity, div_le_one hlenR]
    have := list_sum_le_len_mul hb
    calc ((bins.sum : ℕ) : ℝ) ≤ ((bins.length * 255 : ℕ) : ℝ) := by
          exact_mod_cast this
      _ = (bins.length : ℝ) * 255 := by push_cast; ring
  · intro hz
    have : bins.sum = 0 := by
      simpa using list_sum_of_all_eq hz
    simp [sampleIntensity, this]
  · intro hf
    have hsum : bins.sum = bins.length * 255 := list_sum_of_all_eq hf
    rw [sampleIntensity, hsum]
    push_cast
    field_simp

/-- C7 witness: the one-element sequence `[255]` is nonempty and
byte-valued, and its intensity is within bounds and equals 1. -/
theorem c7_witness :
    (([255] : List ℕ) ≠ [] ∧ (∀ x ∈ ([255] : List ℕ), x ≤ 255)) ∧
    ((0 ≤ sampleIntensity [255] ∧ sampleIntensity [255] ≤ 1) ∧
      ((∀ x ∈ ([255] : List ℕ), x = 0) → sampleIntensity [255] = 0) ∧
      ((∀ x ∈ ([255] : List ℕ), x = 255) → sampleIntensity [255] = 1)) :=
  ⟨⟨by decide, by decide⟩, c7_sampler_bounds [255] (by decide) (by decide)⟩

theorem reachable_audio_invariant {s : SceneState} (h : Reachable s) :
    s.isAudioConnected = false ∧ s.uAudioIntensity = 0 := by
  induction h with
  | boot gp cp rng audioOk => exact ⟨rfl, rfl⟩
  | frame ap bins s hs ih =>
      refine ⟨ih.1, ?_⟩
      simp [animateStep, ih.1, ih.2]
  | regen gp cp rng s hs ih => exact ⟨ih.1, rfl⟩

/-- C1 counterexample: the claim's scenario fails on the code. The frame
loop stores `elapsedTime * rotationSpeed` into the `time` uniform
(line 361) and the shader multiplies by `rotationSpeed` again (line 468),
so with `rotationSpeed = 0.1` and `elapsedTime = 10` the rotation angle
is `0.1` radian, not `10 * 0.1 = 1` radian. -/
theorem c1_cex : effAngle defaultAnim 10 ≠ 10 * defaultAnim.rotationSpeed := by
  norm_num [effAngle, timeUniformVal, defaultAnim]

/-- C1 (amended): for every point with original position `p` and global
elapsed time `t`, the animator rotates `p` rigidly around the vertical
axis by the angle `t * rotationSpeed^2` (the `time` uniform
`t * rotationSpeed` times the shader's `rotationSpeed` factor), the same
angle for every point; in particular with `rotationSpeed = 0.1` and
`elapsedTime = 10` the angle is `0.1` radian; and the rotation preserves
the point's vertical coordinate and its horizontal-plane radius
`sqrt(x^2 + z^2)` exactly. -/
theorem c1_rigid_rotation :
    (∀ ap t, effAngle ap t = t * (ap.rotationSpeed * ap.rotationSpeed)) ∧
    (∀ ap t a,
      shaderAngle ⟨timeUniformVal ap t, a, ap.rotationSpeed, ap.pulseIntensity⟩
        = effAngle ap t) ∧
    (∀ angle p, (rotateY angle p).y = p.y ∧
      (rotateY angle p).x ^ 2 + (rotateY angle p).z ^ 2
        = p.x ^ 2 + p.z ^ 2) ∧
    effAngle defaultAnim 10 = 0.1 := by
  refine ⟨?_, ?_, ?_, ?_⟩
  · intro ap t
    rw [effAngle, timeUniformVal]; ring
  · intro ap t a
    rfl
  · intro angle p
    refine ⟨rfl, ?_⟩
    have h := Real.sin_sq_add_cos_sq angle
    simp only [rotateY]
    linear_combination (p.x ^ 2 + p.z ^ 2) * h
  · norm_num [effAngle, timeUniformVal, defaultAnim]

/-- C6 counterexample: the claim's pulse formula fails on the code. With
the default animation parameters (`rotationSpeed = 0.1`,
`pulseIntensity = 0.3`) at elapsed time `t = 5π/2`, the shader's `time`
uniform is `5π/2 * 0.1 = π/4`, so the computed pulse is
`sin(π/2) * 0.3 = 0.3`, while the claim's `sin(t * 2) * pulseIntensity`
is `sin(5π) * 0.3 = 0`. -/
theorem c6_cex :
    shaderPulse ⟨timeUniformVal defaultAnim (5 * Real.pi / 2), 0,
        defaultAnim.rotationSpeed, defaultAnim.pulseIntensity⟩
      ≠ Real.sin ((5 * Real.pi / 2) * 2) * defaultAnim.pulseIntensity := by
  have h01 : defaultAnim.rotationSpeed = 1 / 10 := by
    norm_num [defaultAnim]
  have h1 : timeUniformVal defaultAnim (5 * Real.pi / 2) * 2 = Real.pi / 2 := by
    rw [timeUniformVal, h01]; ring
  have h2 : (5 * Real.pi / 2) * 2 = (5 : ℕ) * Real.pi := by
    push_cast; ring
  simp only [shaderPulse]
  rw [h1, Real.sin_pi_div_two, h2, Real.sin_nat_mul_pi]
  norm_num [defaultAnim]

/-- C6 (amended): the animator scales the rotated position of every point
by the same factor `1 + pulse * 0.1`, uniformly across all points, where
in terms of the global elapsed time `t` the pulse is
`sin(2 * t * rotationSpeed) * pulseIntensity` (the shader computes
`sin(u * 2) * pulseIntensity` of its `time` uniform
`u = t * rotationSpeed`). -/
theorem c6_uniform_pulse :
    (∀ u p, advance u p =
      add3 (smul3 (1 + shaderPulse u * 0.1) (rotateY (shaderAngle u) p))
        (smul3 (displacement u p) (normalize3 p))) ∧
    (∀ ap t a,
      shaderPulse ⟨timeUniformVal ap t, a, ap.rotationSpeed, ap.pulseIntensity⟩
        = Real.sin (2 * (t * ap.rotationSpeed)) * ap.pulseIntensity) := by
  refine ⟨fun u p => rfl, ?_⟩
  intro ap t a
  simp only [shaderPulse, timeUniformVal]
  rw [mul_comm (t * ap.rotationSpeed) 2]

/-- C5: the Per-Frame Animator is a pure function of its inputs. A frame
never changes the generated cloud; two evaluations of the per-point
transform on equal uniforms and equal clouds give identical outputs; and
after any number of frames the rendered positions are recomputed from
the original stored positions (never from a previous frame's animated
positions). -/
theorem c5_pure_animator :
    (∀ ap bins s, (animateStep ap bins s).cloud = s.cloud) ∧
    (∀ ap s sA, uniformsAt ap s = uniformsAt ap sA → s.cloud = sA.cloud →
      renderedPositions ap s = renderedPositions ap sA) ∧
    (∀ ap binsSeq s n,
      (framesFrom ap binsSeq s n).cloud = s.cloud ∧
      renderedPositions ap (framesFrom ap binsSeq s n)
        = s.cloud.positions.map
            (advance (uniformsAt ap (framesFrom ap binsSeq s n)))) := by
  refine ⟨fun ap bins s => rfl, ?_, ?_⟩
  · intro ap s sA hu hc
    rw [renderedPositions, renderedPositions, hu, hc]
  · intro ap binsSeq s n
    have hc : (framesFrom ap binsSeq s n).cloud = s.cloud := by
      induction n with
      | zero => rfl
      | succ k ih => simpa [framesFrom, animateStep] using ih
    exact ⟨hc, by rw [renderedPositions, hc]⟩

/-- C5 witness: the purity congruence applied to the freshly booted
default scene, with both hypotheses discharged reflexively. -/
theorem c5_witness :
    (uniformsAt defaultAnim (initialState defaultGalaxyParams defaultColors rng0 true)
        = uniformsAt defaultAnim (initialState defaultGalaxyParams defaultColors rng0 true) ∧
      (initialState defaultGalaxyParams defaultColors rng0 true).cloud
        = (initialState defaultGalaxyParams defaultColors rng0 true).cloud) ∧
    renderedPositions defaultAnim (initialState defaultGalaxyParams defaultColors rng0 true)
      = renderedPositions defaultAnim (initialState defaultGalaxyParams defaultColors rng0 true) :=
  ⟨⟨rfl, rfl⟩, c5_pure_animator.2.1 defaultAnim
    (initialState defaultGalaxyParams defaultColors rng0 true)
    (initialState defaultGalaxyParams defaultColors rng0 true) rfl rfl⟩

/-- C8: in every reachable session state the `audioIntensity` uniform is
0 (no audio source is ever connected), so the shader's audio displacement
term `sin(time + |p| * 0.02) * audioIntensity * 10` is identically 0 for
every point in every frame; frames keep executing without error. -/
theorem c8_no_audio_no_displacement :
    ∀ s : SceneState, Reachable s →
      s.uAudioIntensity = 0 ∧
      ∀ ap p, displacement (uniformsAt ap s) p = 0 := by
  intro s h
  refine ⟨(reachable_audio_invariant h).2, fun ap p => ?_⟩
  simp [displacement, uniformsAt, (reachable_audio_invariant h).2]

/-- C8 witness: the state after one frame of the default scene (with an
audio context available but never connected) is reachable, and there the
uniform is 0 and the displacement vanishes. -/
theorem c8_witness :
    Reachable (animateStep defaultAnim []
      (initialState defaultGalaxyParams defaultColors rng0 true)) ∧
    ((animateStep defaultAnim []
        (initialState defaultGalaxyParams defaultColors rng0 true)).uAudioIntensity = 0 ∧
      ∀ ap p, displacement (uniformsAt ap (animateStep defaultAnim []
        (initialState defaultGalaxyParams defaultColors rng0 true))) p = 0) :=
  ⟨Reachable.frame defaultAnim [] _
      (Reachable.boot defaultGalaxyParams defaultColors rng0 true),
    c8_no_audio_no_displacement _
      (Reachable.frame defaultAnim [] _
        (Reachable.boot defaultGalaxyParams defaultColors rng0 true))⟩

/-- C9 counterexample: with the host container absent, `BaseScene`'s
constructor does not fail — the `appendChild` is skipped by optional
chaining (`document.getElementById('app')?.appendChild(...)`) — so
startup completes (with an unattached canvas) instead of surfacing the
startup error the claim requires. -/
theorem c9_cex :
    baseSceneStartup false = InitOutcome.started false ∧
    baseSceneStartup false ≠ InitOutcome.startupError ∧
    baseSceneStartup false ≠ specFatalStartup false := by
  refine ⟨rfl, ?_, ?_⟩ <;> simp [baseSceneStartup, specFatalStartup]

/-- C9 (amended): if the designated host container is absent at startup,
the canvas attachment is silently skipped (optional chaining) and
initialization completes without any startup error — rendering proceeds
against an unattached canvas; this matches, rather than contrasts with,
the silent recovery from audio-context failure (the scene boots with
audio permanently off). -/
theorem c9_silent_startup :
    (∀ hostPresent, baseSceneStartup hostPresent = InitOutcome.started hostPresent) ∧
    (∀ gp cp rng, (initialState gp cp rng false).isAudioConnected = false ∧
      (initialState gp cp rng false).uAudioIntensity = 0) :=
  ⟨fun _ => rfl, fun _ _ _ => ⟨rfl, rfl⟩⟩

/-- C10: in every reachable state of the program the flag
`isAudioConnected` is `false` — no code path sets it to `true`, even when
the audio context is created successfully — and consequently the
`audioIntensity` uniform is 0 in every frame of every session. -/
theorem c10_audio_never_connected :
    ∀ s : SceneState, Reachable s →
      s.isAudioConnected = false ∧ s.uAudioIntensity = 0 :=
  fun _ h => reachable_audio_invariant h

/-- C10 witness: the state after one frame of a session whose audio
context was created successfully is reachable, and the flag is still
`false` with a zero `audioIntensity` uniform. -/
theorem c10_witness :
    Reachable (animateStep defaultAnim [128]
      (initialState defaultGalaxyParams defaultColors rng0 true)) ∧
    ((animateStep defaultAnim [128]
        (initialState defaultGalaxyParams defaultColors rng0 true)).isAudioConnected = false ∧
      (animateStep defaultAnim [128]
        (initialState defaultGalaxyParams defaultColors rng0 true)).uAudioIntensity = 0) :=
  ⟨Reachable.frame defaultAnim [128] _
      (Reachable.boot defaultGalaxyParams defaultColors rng0 true),
    c10_audio_never_connected _
      (Reachable.frame defaultAnim [128] _
        (Reachable.boot defaultGalaxyParams defaultColors rng0 true))⟩

end Galaxy
